import Mathlib

/-!
Verification of the Sipna contamination-incident alerting pipeline.

The definitions below are a shallow embedding of the Python backend:
* `stepIncident`, `checkAndTrigger` embed
  `backend/services/critical_alert_service.py` (`CriticalAlertService.check_and_trigger`),
* `callLoop` / `executeCallSequence` embed `CriticalAlertService._execute_call_sequence`,
* `vapiRun` / `triggerVapiCall` embed
  `backend/services/vapi_call_service.py` (`trigger_vapi_call`),
* `simAlert` / `simAlerts` embed the alert-emission logic of
  `backend/services/simulator.py` (`run_simulator`) and
  `backend/routes/camera_prediction.py` (`predict_frame`).

Machine floats are modelled by ℚ; wall-clock `time.time()` is an explicit
ℚ-valued `now` argument; the Python dict `prediction_data` is a structure of
`Option` fields (a missing key reads as `none`, mirroring `dict.get`).
-/

namespace Sipna

/-- Per-site incident state, mirroring the dict stored in
`CriticalAlertService.site_incidents`. -/
structure IncidentState where
  in_critical_incident : Bool
  last_call_time : ℚ
  normal_frames : Nat
deriving Repr, DecidableEq

/-- The lazily-created initial per-site state
(`{"in_critical_incident": False, "last_call_time": 0.0, "normal_frames": 0}`). -/
def initialIncidentState : IncidentState :=
  { in_critical_incident := false, last_call_time := 0, normal_frames := 0 }

/-- `self.CRITICAL_NTU_THRESHOLD = 45.0`. -/
def CRITICAL_NTU_THRESHOLD : ℚ := 45

/-- `self.COOLDOWN_SECONDS = 600`. -/
def COOLDOWN_SECONDS : ℚ := 600

/-- The hard-coded safe-frame threshold: `if state["normal_frames"] >= 10`. -/
def SAFE_FRAME_THRESHOLD : Nat := 10

/-- `is_critical = status == "pollutant" and turbidity > self.CRITICAL_NTU_THRESHOLD`. -/
def isCritical (status : String) (turbidity : ℚ) : Bool :=
  status == "pollutant" && decide (turbidity > CRITICAL_NTU_THRESHOLD)

/-- One invocation of the per-site body of `check_and_trigger` (lines 61-84):
given the site's current state, whether this reading is critical, and the
current wall-clock time, returns the updated state together with whether
`_execute_call_sequence` was launched on this reading. -/
def stepIncident (st : IncidentState) (is_critical : Bool) (now : ℚ) :
    IncidentState × Bool :=
  if is_critical then
    let st1 : IncidentState := { st with normal_frames := 0 }
    let cooldown_expired : Bool := decide (now - st1.last_call_time > COOLDOWN_SECONDS)
    let st2 : IncidentState := { st1 with in_critical_incident := true }
    if cooldown_expired then
      ({ st2 with last_call_time := now }, true)
    else
      (st2, false)
  else
    if st.in_critical_incident then
      let nf := st.normal_frames + 1
      if nf ≥ SAFE_FRAME_THRESHOLD then
        ({ st with in_critical_incident := false, normal_frames := 0 }, false)
      else
        ({ st with normal_frames := nf }, false)
    else
      (st, false)

/-- The `prediction_data` dict fed to `check_and_trigger`; every field is
optional because the code reads each key with `dict.get` and a default. -/
structure PredictionData where
  site_id : Option String
  turbidity : Option ℚ
  status : Option String
  confidence : Option ℚ
  compliance_score : Option ℚ

/-- Lookup in the `site_incidents` mapping (association list on site ids). -/
def lookupSite : List (String × IncidentState) → String → Option IncidentState
  | [], _ => none
  | (k, v) :: rest, s => if k = s then some v else lookupSite rest s

/-- Update-or-insert in the `site_incidents` mapping. -/
def updateSite : List (String × IncidentState) → String → IncidentState →
    List (String × IncidentState)
  | [], s, v => [(s, v)]
  | (k, w) :: rest, s, v =>
    if k = s then (k, v) :: rest else (k, w) :: updateSite rest s v

/-- Observable outcome of one `check_and_trigger` call: the updated
`site_incidents` mapping, whether a call sequence was dispatched, and the
contamination score that would be passed to it. -/
structure TriggerResult where
  sites : List (String × IncidentState)
  dispatched : Bool
  score : ℚ

/-- `CriticalAlertService.check_and_trigger` (lines 41-84): reads the dict
fields with their defaults, computes criticality and the contamination score,
lazily creates the site entry, and runs the state-machine step. -/
def checkAndTrigger (sites : List (String × IncidentState)) (pd : PredictionData)
    (now : ℚ) : TriggerResult :=
  let site_id := pd.site_id.getD "SITE-01"
  let turbidity := pd.turbidity.getD 0
  let status := pd.status.getD "unknown"
  let is_critical := isCritical status turbidity
  let contamination_score := min 1 (turbidity / 100)
  let st := (lookupSite sites site_id).getD initialIncidentState
  let stepped := stepIncident st is_critical now
  { sites := updateSite sites site_id stepped.1
    dispatched := stepped.2
    score := contamination_score }

/-- Iterate `k` non-critical readings through the state machine (the `now`
argument is irrelevant on the non-critical branch, so `0` is passed). -/
def iterSafe (st : IncidentState) : Nat → IncidentState
  | 0 => st
  | k + 1 => iterSafe (stepIncident st false 0).1 k

/-- Fold a whole trace of readings, each given as (criticality, arrival time),
through the per-site state machine. -/
def applyTrace (st : IncidentState) : List (Bool × ℚ) → IncidentState
  | [] => st
  | (c, t) :: rest => applyTrace (stepIncident st c t).1 rest

/-- The per-site invariant maintained by `check_and_trigger`: the safe-frame
counter is strictly below the stabilization threshold, and it is zero whenever
the site is not in an incident. -/
def IncidentInv (st : IncidentState) : Prop :=
  st.normal_frames < SAFE_FRAME_THRESHOLD ∧
    (st.in_critical_incident = false → st.normal_frames = 0)

instance (st : IncidentState) : Decidable (IncidentInv st) :=
  inferInstanceAs (Decidable (And _ _))

/- Basic step lemmas. -/

lemma stepIncident_critical (st : IncidentState) (now : ℚ) :
    stepIncident st true now =
      if now - st.last_call_time > COOLDOWN_SECONDS then
        ({ in_critical_incident := true, last_call_time := now, normal_frames := 0 }, true)
      else
        ({ in_critical_incident := true, last_call_time := st.last_call_time,
           normal_frames := 0 }, false) := by
  by_cases h : now - st.last_call_time > COOLDOWN_SECONDS <;>
    simp [stepIncident, h]

lemma stepIncident_safe_in (st : IncidentState)
    (hin : st.in_critical_incident = true)
    (hlt : st.normal_frames + 1 < SAFE_FRAME_THRESHOLD) :
    stepIncident st false 0 =
      ({ st with normal_frames := st.normal_frames + 1 }, false) := by
  have : ¬ st.normal_frames + 1 ≥ SAFE_FRAME_THRESHOLD := by omega
  simp [stepIncident, hin, this]

lemma stepIncident_safe_reset (st : IncidentState)
    (hin : st.in_critical_incident = true)
    (hge : st.normal_frames + 1 ≥ SAFE_FRAME_THRESHOLD) :
    stepIncident st false 0 =
      ({ st with in_critical_incident := false, normal_frames := 0 }, false) := by
  simp [stepIncident, hin, hge]

lemma iterSafe_count (k : Nat) (st : IncidentState)
    (hin : st.in_critical_incident = true)
    (hk : st.normal_frames + k < SAFE_FRAME_THRESHOLD) :
    (iterSafe st k).in_critical_incident = true ∧
      (iterSafe st k).normal_frames = st.normal_frames + k := by
  induction k generalizing st with
  | zero => exact ⟨hin, by simp [iterSafe]⟩
  | succ n ih =>
    have hlt : st.normal_frames + 1 < SAFE_FRAME_THRESHOLD := by omega
    have hstep := stepIncident_safe_in st hin hlt
    have h1 : (stepIncident st false 0).1 = { st with normal_frames := st.normal_frames + 1 } := by
      rw [hstep]
    have := ih ({ st with normal_frames := st.normal_frames + 1 }) (by simpa using hin)
      (by simpa using by omega)
    simp only [iterSafe, h1]
    constructor
    · exact this.1
    · rw [this.2]; simp; omega

lemma iterSafe_succ (k : Nat) (st : IncidentState) :
    iterSafe st (k + 1) = (stepIncident (iterSafe st k) false 0).1 := by
  induction k generalizing st with
  | zero => rfl
  | succ n ih =>
    show iterSafe (stepIncident st false 0).1 (n + 1) = _
    rw [ih]
    rfl

lemma stepIncident_false_now (st : IncidentState) (now : ℚ) :
    stepIncident st false now = stepIncident st false 0 := rfl

lemma stepIncident_safe_out (st : IncidentState)
    (hin : st.in_critical_incident = false) :
    stepIncident st false 0 = (st, false) := by
  simp [stepIncident, hin]

lemma stepIncident_crit_in (st : IncidentState) (now : ℚ) :
    (stepIncident st true now).1.in_critical_incident = true := by
  rw [stepIncident_critical]
  by_cases h : now - st.last_call_time > COOLDOWN_SECONDS <;> simp [h]

lemma stepIncident_crit_frames (st : IncidentState) (now : ℚ) :
    (stepIncident st true now).1.normal_frames = 0 := by
  rw [stepIncident_critical]
  by_cases h : now - st.last_call_time > COOLDOWN_SECONDS <;> simp [h]

/-- C1: processing a reading drives a two-state machine per site: a critical
reading (the `isCritical` predicate) sets `in_critical_incident := true` and
resets the safe counter to `0` (this also covers any intervening critical
reading during an incident); from the state just after a critical reading,
after any `k ≤ 9` consecutive non-critical readings the site is still in the
incident with safe counter exactly `k` (in particular still in the incident
after 9), and after exactly `SAFE_FRAME_THRESHOLD = 10` consecutive
non-critical readings the site is back to normal with the counter reset
to `0`. -/
theorem critical_incident_hysteresis (st : IncidentState) (now : ℚ) (k : Nat)
    (hk : k ≤ 9) :
    ((stepIncident st true now).1.in_critical_incident = true ∧
      (stepIncident st true now).1.normal_frames = 0) ∧
    ((iterSafe (stepIncident st true now).1 k).in_critical_incident = true ∧
      (iterSafe (stepIncident st true now).1 k).normal_frames = k) ∧
    ((iterSafe (stepIncident st true now).1 SAFE_FRAME_THRESHOLD).in_critical_incident
        = false ∧
      (iterSafe (stepIncident st true now).1 SAFE_FRAME_THRESHOLD).normal_frames = 0) := by
  have hin := stepIncident_crit_in st now
  have hnf := stepIncident_crit_frames st now
  have hmain : ∀ m : Nat, m ≤ 9 →
      (iterSafe (stepIncident st true now).1 m).in_critical_incident = true ∧
        (iterSafe (stepIncident st true now).1 m).normal_frames = m := by
    intro m hm
    have h := iterSafe_count m (stepIncident st true now).1 hin
      (by rw [hnf]; simp only [SAFE_FRAME_THRESHOLD]; omega)
    rw [hnf] at h
    exact ⟨h.1, by simpa using h.2⟩
  refine ⟨⟨hin, hnf⟩, hmain k hk, ?_⟩
  have h9 := hmain 9 (by omega)
  have hstep := stepIncident_safe_reset (iterSafe (stepIncident st true now).1 9)
    h9.1 (by rw [h9.2]; simp [SAFE_FRAME_THRESHOLD])
  have h10 : iterSafe (stepIncident st true now).1 SAFE_FRAME_THRESHOLD =
      (stepIncident (iterSafe (stepIncident st true now).1 9) false 0).1 := by
    simp only [SAFE_FRAME_THRESHOLD]
    exact iterSafe_succ 9 _
  rw [h10, hstep]
  exact ⟨rfl, rfl⟩

/-- Closed witness for `critical_incident_hysteresis` at the initial state,
a critical reading at time 1000, and 9 subsequent safe readings. -/
theorem critical_incident_hysteresis_witness :
    (9 : Nat) ≤ 9 ∧
      (iterSafe (stepIncident initialIncidentState true 1000).1 9).in_critical_incident
          = true ∧
      (iterSafe (stepIncident initialIncidentState true 1000).1
          SAFE_FRAME_THRESHOLD).in_critical_incident = false :=
  ⟨by decide,
    (critical_incident_hysteresis initialIncidentState 1000 9 (by decide)).2.1.1,
    (critical_incident_hysteresis initialIncidentState 1000 9 (by decide)).2.2.1⟩

lemma stepIncident_inv (st : IncidentState) (c : Bool) (now : ℚ)
    (h : IncidentInv st) : IncidentInv (stepIncident st c now).1 := by
  cases c with
  | true =>
    rw [stepIncident_critical]
    by_cases hc : now - st.last_call_time > COOLDOWN_SECONDS <;>
      simp [hc, IncidentInv, SAFE_FRAME_THRESHOLD]
  | false =>
    rw [stepIncident_false_now]
    by_cases hin : st.in_critical_incident = true
    · by_cases hge : st.normal_frames + 1 ≥ SAFE_FRAME_THRESHOLD
      · rw [stepIncident_safe_reset st hin hge]
        simp [IncidentInv, SAFE_FRAME_THRESHOLD]
      · rw [stepIncident_safe_in st hin (by omega)]
        exact ⟨by simp; omega, by simp [hin]⟩
    · rw [stepIncident_safe_out st (by simpa using hin)]
      exact h

/-- C10: the per-site invariant `IncidentInv` — the safe-frame counter stays
strictly below `SAFE_FRAME_THRESHOLD = 10` (and, being a natural number, is
never negative), and equals `0` whenever the site is not in an incident — is
preserved by processing any trace of readings; so a site never rests at or
above the stabilization threshold and the counter never carries over across
incidents. -/
theorem incident_tracker_invariant (tr : List (Bool × ℚ)) (st : IncidentState)
    (h : IncidentInv st) : IncidentInv (applyTrace st tr) := by
  induction tr generalizing st with
  | nil => exact h
  | cons p rest ih =>
    obtain ⟨c, t⟩ := p
    exact ih _ (stepIncident_inv st c t h)

/-- Closed witness for `incident_tracker_invariant`: the initial state
satisfies the invariant and so does the state after a concrete trace. -/
theorem incident_tracker_invariant_witness :
    IncidentInv initialIncidentState ∧
      IncidentInv (applyTrace initialIncidentState
        [(true, 1000), (false, 1002), (false, 1004)]) :=
  ⟨by decide,
    incident_tracker_invariant [(true, 1000), (false, 1002), (false, 1004)]
      initialIncidentState (by decide)⟩

/-- Run a whole trace of readings through the per-site machine and collect the
times of the readings on which a call sequence was dispatched. -/
def runTrace (st : IncidentState) : List (Bool × ℚ) → List ℚ
  | [] => []
  | (c, t) :: rest =>
    let stepped := stepIncident st c t
    if stepped.2 then t :: runTrace stepped.1 rest else runTrace stepped.1 rest

lemma stepIncident_dispatch (st : IncidentState) (c : Bool) (now : ℚ) :
    (stepIncident st c now).2 =
      (c && decide (now - st.last_call_time > COOLDOWN_SECONDS)) := by
  cases c with
  | true =>
    rw [stepIncident_critical]
    by_cases h : now - st.last_call_time > COOLDOWN_SECONDS <;> simp [h]
  | false =>
    simp only [Bool.false_and]
    rw [stepIncident_false_now]
    by_cases hin : st.in_critical_incident = true
    · by_cases hge : st.normal_frames + 1 ≥ SAFE_FRAME_THRESHOLD
      · rw [stepIncident_safe_reset st hin hge]
      · rw [stepIncident_safe_in st hin (by omega)]
    · rw [stepIncident_safe_out st (by simpa using hin)]

lemma stepIncident_last (st : IncidentState) (c : Bool) (now : ℚ) :
    (stepIncident st c now).1.last_call_time =
      if (stepIncident st c now).2 = true then now else st.last_call_time := by
  cases c with
  | true =>
    rw [stepIncident_critical]
    by_cases h : now - st.last_call_time > COOLDOWN_SECONDS <;> simp [h]
  | false =>
    rw [stepIncident_false_now]
    have hd := stepIncident_dispatch st false 0
    rw [Bool.false_and] at hd
    rw [stepIncident_false_now] at hd
    rw [hd]
    by_cases hin : st.in_critical_incident = true
    · by_cases hge : st.normal_frames + 1 ≥ SAFE_FRAME_THRESHOLD
      · rw [stepIncident_safe_reset st hin hge]; simp
      · rw [stepIncident_safe_in st hin (by omega)]; simp
    · rw [stepIncident_safe_out st (by simpa using hin)]; simp

lemma stepIncident_dispatch_time (st : IncidentState) (c : Bool) (now : ℚ)
    (hd : (stepIncident st c now).2 = true) :
    now - st.last_call_time > COOLDOWN_SECONDS := by
  have h := stepIncident_dispatch st c now
  rw [hd] at h
  rcases Bool.and_eq_true _ _ |>.mp h.symm with ⟨_, h2⟩
  exact of_decide_eq_true h2

lemma runTrace_mem_gt (tr : List (Bool × ℚ)) (st : IncidentState) (t : ℚ)
    (ht : t ∈ runTrace st tr) :
    t - st.last_call_time > COOLDOWN_SECONDS := by
  induction tr generalizing st with
  | nil => simp [runTrace] at ht
  | cons p rest ih =>
    obtain ⟨c, t0⟩ := p
    by_cases hd : (stepIncident st c t0).2 = true
    · have hrt : runTrace st ((c, t0) :: rest) =
          t0 :: runTrace (stepIncident st c t0).1 rest := by
        simp [runTrace, hd]
      rw [hrt] at ht
      have hgt0 := stepIncident_dispatch_time st c t0 hd
      rcases List.mem_cons.mp ht with h | h
      · subst h; exact hgt0
      · have hlast : (stepIncident st c t0).1.last_call_time = t0 := by
          rw [stepIncident_last, if_pos hd]
        have htail := ih _ h
        rw [hlast] at htail
        have hcool : (0 : ℚ) < COOLDOWN_SECONDS := by norm_num [COOLDOWN_SECONDS]
        linarith
    · have hrt : runTrace st ((c, t0) :: rest) =
          runTrace (stepIncident st c t0).1 rest := by
        simp [runTrace, hd]
      rw [hrt] at ht
      have hlast : (stepIncident st c t0).1.last_call_time = st.last_call_time := by
        rw [stepIncident_last, if_neg hd]
      have htail := ih _ ht
      rw [hlast] at htail
      exact htail

lemma runTrace_pairwise (tr : List (Bool × ℚ)) (st : IncidentState) :
    (runTrace st tr).Pairwise (fun a b => b - a > COOLDOWN_SECONDS) := by
  induction tr generalizing st with
  | nil => simp [runTrace]
  | cons p rest ih =>
    obtain ⟨c, t0⟩ := p
    by_cases hd : (stepIncident st c t0).2 = true
    · have hrt : runTrace st ((c, t0) :: rest) =
          t0 :: runTrace (stepIncident st c t0).1 rest := by
        simp [runTrace, hd]
      rw [hrt]
      refine List.Pairwise.cons ?_ (ih _)
      intro b hb
      have hmem := runTrace_mem_gt rest _ b hb
      have hlast : (stepIncident st c t0).1.last_call_time = t0 := by
        rw [stepIncident_last, if_pos hd]
      rw [hlast] at hmem
      exact hmem
    · have hrt : runTrace st ((c, t0) :: rest) =
          runTrace (stepIncident st c t0).1 rest := by
        simp [runTrace, hd]
      rw [hrt]
      exact ih _

/-- C2: a dispatch is signalled on a reading if and only if the reading is
critical and `now - last_call_time > COOLDOWN_SECONDS` (600 s) — a formula
that does not consult `in_critical_incident`, so it is evaluated on every
critical reading whether or not the site was already in an incident;
`last_call_time` is updated to `now` exactly when a dispatch is signalled;
and consequently the dispatch times collected over any trace of readings are
pairwise more than `COOLDOWN_SECONDS` apart (so never less than 600 s). -/
theorem call_dispatch_cooldown (st : IncidentState) (c : Bool) (now : ℚ)
    (tr : List (Bool × ℚ)) :
    ((stepIncident st c now).2 =
      (c && decide (now - st.last_call_time > COOLDOWN_SECONDS))) ∧
    ((stepIncident st c now).1.last_call_time =
      if (stepIncident st c now).2 = true then now else st.last_call_time) ∧
    (runTrace st tr).Pairwise (fun a b => b - a > COOLDOWN_SECONDS) :=
  ⟨stepIncident_dispatch st c now, stepIncident_last st c now,
    runTrace_pairwise tr st⟩

/-- C5: the contamination score handed to the dispatch sequence is
`min 1 (turbidity / 100)`, computed purely from the reading's turbidity: two
readings with the same turbidity get the same score, whatever their
confidence, compliance score, status or site. -/
theorem contamination_score_formula (sites : List (String × IncidentState))
    (pd pd' : PredictionData) (now now' : ℚ) (hturb : pd'.turbidity = pd.turbidity) :
    (checkAndTrigger sites pd now).score = min 1 (pd.turbidity.getD 0 / 100) ∧
    (checkAndTrigger sites pd' now').score = (checkAndTrigger sites pd now).score := by
  constructor
  · rfl
  · simp [checkAndTrigger, hturb]

/-- Closed witness for `contamination_score_formula`: two readings sharing
turbidity 50 but different confidence, compliance, status and site get the
same score `min 1 (50 / 100)`. -/
theorem contamination_score_formula_witness :
    (checkAndTrigger [] ⟨some "SITE-01", some 50, some "clear", some 40, some 10⟩ 0).score
        = min 1 ((50 : ℚ) / 100) ∧
    (checkAndTrigger [] ⟨some "SITE-02", some 50, some "pollutant", some 99, some 90⟩ 7).score
        = (checkAndTrigger [] ⟨some "SITE-01", some 50, some "clear", some 40, some 10⟩ 0).score :=
  contamination_score_formula [] ⟨some "SITE-01", some 50, some "clear", some 40, some 10⟩
    ⟨some "SITE-02", some 50, some "pollutant", some 99, some 90⟩ 0 7 rfl

/-- C9 is false on the code: the reading with every field missing is not
rejected — `check_and_trigger` silently defaults the fields and creates
per-site incident state for the defaulted site "SITE-01". -/
theorem missing_fields_counterexample :
    (checkAndTrigger [] ⟨none, none, none, none, none⟩ 100).sites =
      [("SITE-01", initialIncidentState)] ∧
    lookupSite (checkAndTrigger [] ⟨none, none, none, none, none⟩ 100).sites "SITE-01"
      = some initialIncidentState := by
  constructor
  · rfl
  · rfl

lemma lookupSite_updateSite (m : List (String × IncidentState)) (s : String)
    (v : IncidentState) : lookupSite (updateSite m s v) s = some v := by
  induction m with
  | nil => simp [updateSite, lookupSite]
  | cons p rest ih =>
    obtain ⟨k, w⟩ := p
    by_cases hk : k = s
    · simp [updateSite, hk, lookupSite]
    · simp [updateSite, hk, lookupSite, ih]

/-- C9 amended: a reading with missing fields is not rejected; the fields are
silently defaulted (`site_id → "SITE-01"`, `turbidity → 0.0`,
`status → "unknown"`), the reading is processed exactly like the
corresponding fully-populated reading, and afterwards the `site_incidents`
mapping holds an entry for "SITE-01" (state is created or mutated, never
left untouched by a validation error). -/
theorem missing_fields_defaulted (sites : List (String × IncidentState)) (now : ℚ) :
    checkAndTrigger sites ⟨none, none, none, none, none⟩ now =
      checkAndTrigger sites ⟨some "SITE-01", some 0, some "unknown", none, none⟩ now ∧
    lookupSite (checkAndTrigger sites ⟨none, none, none, none, none⟩ now).sites
        "SITE-01" =
      some (stepIncident ((lookupSite sites "SITE-01").getD initialIncidentState)
        false now).1 := by
  constructor
  · rfl
  · have hcrit : isCritical "unknown" 0 = false := by decide
    simp only [checkAndTrigger, Option.getD]
    rw [show (isCritical "unknown" (0:ℚ)) = false from hcrit]
    exact lookupSite_updateSite sites "SITE-01" _

/-- An entry of the `emergency_contacts.json` list; both keys are read with
`dict.get`, so each may be absent. -/
structure Contact where
  name : Option String
  phone : Option String
deriving DecidableEq, Repr

/-- One `CallLog` row as written by `CriticalAlertService._log_call`. -/
structure CallAttempt where
  phone_number : String
  status : String
  contamination_score : ℚ
  site_id : String
deriving DecidableEq, Repr

/-- Observable outcome of `_execute_call_sequence`: whether the
empty-contacts error was logged, and the `CallLog` rows written. -/
structure DispatchResult where
  errorLogged : Bool
  attempts : List CallAttempt
deriving DecidableEq, Repr

/-- Python truthiness of `contact.get("phone")`: present and non-empty
(`if not phone_number: continue`). -/
def hasPhone (c : Contact) : Bool :=
  match c.phone with
  | none => false
  | some p => !(p == "")

/-- The `for contact in self.contacts` loop of `_execute_call_sequence`
(lines 97-117); the provider (`trigger_vapi_call`) is abstracted as a
function from phone number to success. -/
def callLoop (provider : String → Bool) (site_id : String) (score : ℚ) :
    List Contact → List CallAttempt
  | [] => []
  | c :: rest =>
    match c.phone with
    | none => callLoop provider site_id score rest
    | some p =>
      if p = "" then callLoop provider site_id score rest
      else
        { phone_number := p,
          status := if provider p then "completed" else "failed",
          contamination_score := score,
          site_id := site_id } :: callLoop provider site_id score rest

/-- `CriticalAlertService._execute_call_sequence` (lines 87-117). -/
def executeCallSequence (contacts : List Contact) (provider : String → Bool)
    (site_id : String) (score : ℚ) : DispatchResult :=
  if contacts.isEmpty then { errorLogged := true, attempts := [] }
  else { errorLogged := false, attempts := callLoop provider site_id score contacts }

/-- C3 is false as stated: a configured contact whose entry lacks a phone
number is skipped silently, so a non-empty one-contact list yields zero
`CallAttempt` records (not one per configured contact) while no error is
logged. -/
theorem call_attempt_per_contact_counterexample :
    ([{ name := some "Alice", phone := none }] : List Contact).length = 1 ∧
    (executeCallSequence [{ name := some "Alice", phone := none }]
        (fun _ => true) "SITE-01" 1).attempts.length = 0 ∧
    (executeCallSequence [{ name := some "Alice", phone := none }]
        (fun _ => true) "SITE-01" 1).errorLogged = false := by
  refine ⟨rfl, rfl, rfl⟩

lemma callLoop_eq (provider : String → Bool) (site : String) (score : ℚ)
    (contacts : List Contact) :
    callLoop provider site score contacts =
      (contacts.filter hasPhone).map (fun c =>
        { phone_number := c.phone.getD "",
          status := if provider (c.phone.getD "") then "completed" else "failed",
          contamination_score := score,
          site_id := site }) := by
  induction contacts with
  | nil => rfl
  | cons c rest ih =>
    match hp : c.phone with
    | none =>
      have hhp : hasPhone c = false := by simp [hasPhone, hp]
      simp only [callLoop, hp, List.filter_cons, hhp, Bool.false_eq_true, if_false, ih]
    | some p =>
      by_cases hemp : p = ""
      · have hhp : hasPhone c = false := by simp [hasPhone, hp, hemp]
        simp [callLoop, hp, hemp, List.filter_cons, hhp, ih]
      · have hhp : hasPhone c = true := by simp [hasPhone, hp, hemp]
        simp only [callLoop, hp, if_neg hemp, List.filter_cons, hhp, if_true, List.map_cons,
          ih, hp, Option.getD]

/-- C3 amended: with a non-empty contact list, one dispatch run writes exactly
one `CallAttempt` per configured contact that has a non-empty phone number, in
list order, regardless of each provider call's outcome (contacts without a
usable phone are skipped silently); with an empty list, the run logs an error,
writes zero records, and never consults the provider. -/
theorem call_attempt_per_contact (contacts : List Contact)
    (provider provider2 : String → Bool) (site : String) (score : ℚ)
    (hne : contacts ≠ []) :
    (executeCallSequence contacts provider site score).errorLogged = false ∧
    (executeCallSequence contacts provider site score).attempts =
      (contacts.filter hasPhone).map (fun c =>
        { phone_number := c.phone.getD "",
          status := if provider (c.phone.getD "") then "completed" else "failed",
          contamination_score := score,
          site_id := site }) ∧
    executeCallSequence [] provider site score =
      { errorLogged := true, attempts := [] } ∧
    executeCallSequence [] provider site score =
      executeCallSequence [] provider2 site score := by
  have hne' : contacts.isEmpty = false := by
    cases contacts with
    | nil => exact absurd rfl hne
    | cons a l => rfl
  refine ⟨?_, ?_, rfl, rfl⟩
  · simp [executeCallSequence, hne']
  · simp only [executeCallSequence, hne', Bool.false_eq_true, if_false]
    exact callLoop_eq provider site score contacts

/-- Closed witness for `call_attempt_per_contact`: a two-contact list (one
failing provider call, one succeeding) yields exactly the two records in list
order. -/
theorem call_attempt_per_contact_witness :
    (executeCallSequence
        [{ name := some "Alice", phone := some "111" },
         { name := some "Bob", phone := some "222" }]
        (fun p => p == "222") "SITE-01" 1).attempts =
      [{ phone_number := "111", status := "failed", contamination_score := 1,
         site_id := "SITE-01" },
       { phone_number := "222", status := "completed", contamination_score := 1,
         site_id := "SITE-01" }] := by
  have h := call_attempt_per_contact
    [{ name := some "Alice", phone := some "111" },
     { name := some "Bob", phone := some "222" }]
    (fun p => p == "222") (fun _ => true) "SITE-01" 1 (by simp)
  rw [h.2.1]
  rfl

/-- Response of one Vapi HTTP attempt: an HTTP status code, or a raised
exception (network error, timeout, …). -/
inductive VapiOutcome where
  | ok (code : Nat)
  | error
deriving DecidableEq, Repr

/-- `response.status_code in (200, 201)`. -/
def isSuccessCode (c : Nat) : Bool := c == 200 || c == 201

/-- Whether the `i`-th attempt against the provider comes back successful;
exceptions count as failure. -/
def attemptOk (responses : Nat → VapiOutcome) (i : Nat) : Bool :=
  match responses i with
  | .ok c => isSuccessCode c
  | .error => false

/-- `max_retries = 2` in `trigger_vapi_call`. -/
def MAX_RETRIES : Nat := 2

/-- The `for attempt in range(max_retries + 1)` loop of `trigger_vapi_call`
(lines 37-63), with `remaining` attempts left, starting at index `attempt`.
Returns (result, attempts actually made, backoff sleeps performed in
seconds). A successful attempt returns `True` immediately; a failed attempt
that is not the last is followed by `asyncio.sleep(2)`. -/
def vapiRun (responses : Nat → VapiOutcome) (attempt : Nat) :
    Nat → Bool × Nat × List ℚ
  | 0 => (false, 0, [])
  | remaining + 1 =>
    if attemptOk responses attempt then (true, 1, [])
    else if remaining = 0 then (false, 1, [])
    else
      let r := vapiRun responses (attempt + 1) remaining
      (r.1, r.2.1 + 1, 2 :: r.2.2)

/-- `trigger_vapi_call`, applied to the stream of provider responses. -/
def triggerVapiCall (responses : Nat → VapiOutcome) : Bool × Nat × List ℚ :=
  vapiRun responses 0 (MAX_RETRIES + 1)

lemma vapiRun_spec (responses : Nat → VapiOutcome) (r : Nat) :
    ∀ a : Nat,
      (vapiRun responses a r).2.1 ≤ r ∧
      (1 ≤ r → 1 ≤ (vapiRun responses a r).2.1) ∧
      ((vapiRun responses a r).1 = true ↔
        ∃ i, i < r ∧ attemptOk responses (a + i) = true) ∧
      (vapiRun responses a r).2.2 =
        List.replicate ((vapiRun responses a r).2.1 - 1) 2 := by
  induction r with
  | zero =>
    intro a
    refine ⟨le_refl _, by omega, ?_, rfl⟩
    simp [vapiRun]
  | succ rem ih =>
    intro a
    by_cases hok : attemptOk responses a = true
    · have hv : vapiRun responses a (rem + 1) = (true, 1, []) := by
        simp [vapiRun, hok]
      rw [hv]
      dsimp only
      refine ⟨by omega, fun _ => le_refl 1, ?_, by simp⟩
      constructor
      · intro _
        exact ⟨0, by omega, by simpa using hok⟩
      · intro _
        rfl
    · by_cases hrem : rem = 0
      · have hv : vapiRun responses a (rem + 1) = (false, 1, []) := by
          simp [vapiRun, hok, hrem]
        rw [hv]
        dsimp only
        refine ⟨by omega, fun _ => le_refl 1, ?_, by simp⟩
        subst hrem
        constructor
        · intro hq
          exact absurd hq (by simp)
        · rintro ⟨i, hi, hq⟩
          have hi0 : i = 0 := by omega
          subst hi0
          simp only [Nat.add_zero] at hq
          exact absurd hq hok
      · have hv : vapiRun responses a (rem + 1) =
            ((vapiRun responses (a + 1) rem).1,
             (vapiRun responses (a + 1) rem).2.1 + 1,
             2 :: (vapiRun responses (a + 1) rem).2.2) := by
          simp [vapiRun, hok, hrem]
        obtain ⟨h1, h2, h3, h4⟩ := ih (a + 1)
        rw [hv]
        dsimp only
        refine ⟨by omega, fun _ => by omega, ?_, ?_⟩
        · rw [h3]
          constructor
          · rintro ⟨i, hi, hq⟩
            refine ⟨i + 1, by omega, ?_⟩
            have harith : a + (i + 1) = a + 1 + i := by omega
            rw [harith]
            exact hq
          · rintro ⟨i, hi, hq⟩
            cases i with
            | zero =>
              simp only [Nat.add_zero] at hq
              exact absurd hq hok
            | succ j =>
              refine ⟨j, by omega, ?_⟩
              have harith : a + 1 + j = a + (j + 1) := by omega
              rw [harith]
              exact hq
        · have hone : 1 ≤ (vapiRun responses (a + 1) rem).2.1 := h2 (by omega)
          rw [h4]
          have harith : (vapiRun responses (a + 1) rem).2.1 + 1 - 1 =
              ((vapiRun responses (a + 1) rem).2.1 - 1) + 1 := by omega
          rw [harith, List.replicate_succ]

/-- C4: the provider invocation makes at most `1 + MAX_RETRIES = 3` attempts
(and at least one), with a fixed 2-second backoff recorded between successive
attempts (one sleep per attempt after the first); the outcome is success —
which the dispatcher folds into the status string "completed", "failed"
otherwise — if and only if some attempt within the budget returns a success
response; exceptions count as failed attempts and never escape
(`triggerVapiCall` is total and simply yields `false` for them). -/
theorem vapi_retry_budget (responses : Nat → VapiOutcome) :
    (triggerVapiCall responses).2.1 ≤ MAX_RETRIES + 1 ∧
    1 ≤ (triggerVapiCall responses).2.1 ∧
    ((triggerVapiCall responses).1 = true ↔
      ∃ i, i < MAX_RETRIES + 1 ∧ attemptOk responses i = true) ∧
    (triggerVapiCall responses).2.2 =
      List.replicate ((triggerVapiCall responses).2.1 - 1) 2 ∧
    (if (triggerVapiCall responses).1 then "completed" else "failed") =
      (if ∃ i, i < MAX_RETRIES + 1 ∧ attemptOk responses i = true then
        "completed" else "failed") := by
  simp only [triggerVapiCall]
  obtain ⟨h1, h2, h3, h4⟩ := vapiRun_spec responses (MAX_RETRIES + 1) 0
  simp only [Nat.zero_add] at h3
  refine ⟨h1, h2 (by omega), h3, h4, ?_⟩
  by_cases hex : ∃ i, i < MAX_RETRIES + 1 ∧ attemptOk responses i = true
  · rw [if_pos (h3.mpr hex), if_pos hex]
  · rw [if_neg hex]
    have hfalse : (vapiRun responses 0 (MAX_RETRIES + 1)).1 = false := by
      cases hb : (vapiRun responses 0 (MAX_RETRIES + 1)).1 with
      | false => rfl
      | true => exact absurd (h3.mp hb) hex
    simp [hfalse]

/-- Closed witness for `vapi_retry_budget`: a provider that errors on the
first attempt and returns HTTP 200 on the second yields a completed call
within the budget. -/
theorem vapi_retry_budget_witness :
    (triggerVapiCall (fun i => if i = 1 then VapiOutcome.ok 200
      else VapiOutcome.error)).1 = true :=
  (vapi_retry_budget (fun i => if i = 1 then VapiOutcome.ok 200
      else VapiOutcome.error)).2.2.1.mpr ⟨1, by decide, rfl⟩

/-- One reading as generated by `simulate_prediction` / `_analyze_frame` and
fed to the alerting path. -/
structure SimReading where
  timestamp : ℚ
  status : String
  confidence : ℚ
  turbidity : ℚ
  ph : ℚ
  compliance_score : ℚ
  site_id : String
deriving DecidableEq, Repr

/-- Alert urgency class stored in the `Alert.severity` column. -/
inductive Severity where
  | warning
  | critical
deriving DecidableEq, Repr

/-- The alert-severity decision shared by `run_simulator` (lines 69-82) and
`predict_frame` / `process_ws_frame` (lines 168-186, 219-232):
`pollutant → critical`, `moderate` with turbidity above 15 → `warning`,
anything else → no alert. Note: neither path consults confidence or any
cooldown state. -/
def alertFor (status : String) (turbidity : ℚ) : Option Severity :=
  if status = "pollutant" then some .critical
  else if status = "moderate" ∧ turbidity > 15 then some .warning
  else none

/-- The alert decision for a whole reading. -/
def simAlert (r : SimReading) : Option Severity :=
  alertFor r.status r.turbidity

/-- Alert records produced over a sequence of readings, each carrying the
reading's timestamp, the derived severity, and the site id. -/
def simAlerts : List SimReading → List (ℚ × Severity × String)
  | [] => []
  | r :: rest =>
    match simAlert r with
    | some sev => (r.timestamp, sev, r.site_id) :: simAlerts rest
    | none => simAlerts rest

/-- C6: the alert severity is derived from status and turbidity alone —
status `pollutant` yields a critical alert (for any turbidity), status
`moderate` with turbidity above 15 yields a warning alert, and no other
status/turbidity combination produces an alert record. -/
theorem alert_severity_rules (s : String) (t : ℚ) :
    alertFor "pollutant" t = some Severity.critical ∧
    (t > 15 → alertFor "moderate" t = some Severity.warning) ∧
    (¬ t > 15 → alertFor "moderate" t = none) ∧
    (¬(s = "pollutant" ∨ (s = "moderate" ∧ t > 15)) → alertFor s t = none) := by
  refine ⟨?_, ?_, ?_, ?_⟩
  · simp [alertFor]
  · intro ht
    rw [alertFor, if_neg (by decide), if_pos ⟨rfl, ht⟩]
  · intro ht
    rw [alertFor, if_neg (by decide), if_neg (by
      rintro ⟨-, h⟩
      exact ht h)]
  · intro h
    push_neg at h
    obtain ⟨h1, h2⟩ := h
    by_cases hm : s = "moderate"
    · rw [alertFor, if_neg h1, if_neg (by
        rintro ⟨-, ht⟩
        exact absurd ht (not_lt.mpr (h2 hm)))]
    · rw [alertFor, if_neg h1, if_neg (by
        rintro ⟨hs, -⟩
        exact hm hs)]

/-- Closed witness for `alert_severity_rules` at concrete readings: pollutant
at turbidity 5 is critical, moderate at 16 is a warning, moderate at 15 and
clear at 100 produce no alert. -/
theorem alert_severity_rules_witness :
    alertFor "pollutant" 5 = some Severity.critical ∧
    alertFor "moderate" 16 = some Severity.warning ∧
    alertFor "moderate" 15 = none ∧
    alertFor "clear" 100 = none :=
  ⟨(alert_severity_rules "clear" 5).1,
    (alert_severity_rules "clear" 16).2.1 (by norm_num),
    (alert_severity_rules "clear" 15).2.2.1 (by norm_num),
    (alert_severity_rules "clear" 100).2.2.2 (by
      rintro (h | ⟨h, -⟩) <;> exact absurd h (by decide))⟩

/-- C7 is false on the code: a reading with confidence 40 (below the spec's
threshold of 60) and status `pollutant` still produces a critical alert —
the alerting path never consults confidence. -/
theorem low_confidence_alert_counterexample :
    (40 : ℚ) < 60 ∧
    simAlert { timestamp := 0, status := "pollutant", confidence := 40,
               turbidity := 999 / 10, ph := 7, compliance_score := 50,
               site_id := "SITE-01" } = some Severity.critical := by
  constructor
  · norm_num
  · rfl

/-- C7 amended: the alerting path does not consult confidence at all — for
every reading, in particular every reading with confidence below 60, the
alert decision equals `alertFor status turbidity`, and no alert is produced
exactly when the status/turbidity combination does not qualify. -/
theorem low_confidence_no_gate (r : SimReading) (_hconf : r.confidence < 60) :
    simAlert r = alertFor r.status r.turbidity ∧
    (simAlert r = none ↔
      ¬(r.status = "pollutant" ∨ (r.status = "moderate" ∧ r.turbidity > 15))) := by
  refine ⟨rfl, ?_⟩
  constructor
  · intro hnone
    rintro (hs | ⟨hs, ht⟩)
    · rw [simAlert, alertFor, if_pos hs] at hnone
      exact Option.some_ne_none _ hnone
    · rw [simAlert, alertFor] at hnone
      by_cases hp : r.status = "pollutant"
      · rw [if_pos hp] at hnone
        exact Option.some_ne_none _ hnone
      · rw [if_neg hp, if_pos ⟨hs, ht⟩] at hnone
        exact Option.some_ne_none _ hnone
  · intro hq
    exact (alert_severity_rules r.status r.turbidity).2.2.2 hq

/-- Closed witness for `low_confidence_no_gate`: a clear reading with
confidence 40 produces no alert, and that is because its status/turbidity do
not qualify, not because of its confidence. -/
theorem low_confidence_no_gate_witness :
    simAlert { timestamp := 0, status := "clear", confidence := 40,
               turbidity := 2, ph := 7, compliance_score := 95,
               site_id := "SITE-01" } = none :=
  (low_confidence_no_gate _ (by norm_num)).2.mpr (by
    rintro (h | ⟨h, -⟩) <;> exact absurd h (by decide))

/-- C8 is false on the code: no alert cooldown exists. Two pollutant readings
for the same site, with confidence 90 (at or above the spec threshold) and 2
seconds apart, both produce critical alert records — 2 s is far below the
claimed 30-second minimum spacing. -/
theorem alert_cooldown_counterexample :
    simAlerts
        [{ timestamp := 0, status := "pollutant", confidence := 90,
           turbidity := 80, ph := 7, compliance_score := 30, site_id := "SITE-02" },
         { timestamp := 2, status := "pollutant", confidence := 90,
           turbidity := 80, ph := 7, compliance_score := 30, site_id := "SITE-02" }] =
      [(0, Severity.critical, "SITE-02"), (2, Severity.critical, "SITE-02")] ∧
    (90 : ℚ) ≥ 60 ∧ (2 : ℚ) - 0 < 30 := by
  refine ⟨rfl, by norm_num, by norm_num⟩

/-- C8 amended: the code keeps no per-(site, severity) cooldown state at all:
every reading whose status/turbidity qualify emits an alert record with that
reading's own timestamp, however close to the previous one — `simAlerts` is
exactly the per-reading decision mapped over the sequence. -/
theorem no_alert_cooldown (rs : List SimReading) :
    simAlerts rs = rs.filterMap (fun r =>
      (simAlert r).map (fun sev => (r.timestamp, sev, r.site_id))) := by
  induction rs with
  | nil => rfl
  | cons r rest ih =>
    match ha : simAlert r with
    | some sev => simp [simAlerts, ha, ih]
    | none => simp [simAlerts, ha, ih]

end Sipna
